import Mathlib

/-!
Verification of the render-state management and picking engine of the
3D-Mesh-Landmarker viewer (PyIGL_viewer/viewer/viewer_widget.py) against its
natural-language specification.

The Python source is shallowly embedded: numpy float arrays become lists of
rational vectors (all concrete inputs used below are dyadic rationals, on which
IEEE-754 double arithmetic is exact), Python dicts become association lists
with replace-on-set semantics, Python exceptions become an explicit error type
carried by Except, and the two event queues become lists drained in FIFO order.
-/

deriving instance DecidableEq for Except

/-- Python exceptions that the embedded code can raise.
keyError models a Python KeyError (dict lookup / pop of an absent key), which
realizes the spec taxonomy's NotFoundError; valueError models ValueError
(including numpy broadcast shape mismatches); indexError models numpy fancy
indexing with an out-of-range index. -/
inductive PyError where
  | keyError
  | valueError
  | indexError
deriving DecidableEq, Repr

/-- A 3-vector with exact rational entries, embedding a row of a numpy
float array. -/
structure Vec3 where
  x : ℚ
  y : ℚ
  z : ℚ
deriving DecidableEq, Repr

/-- Elementwise subtraction of two rows, as in numpy B - A. -/
def vsub (a b : Vec3) : Vec3 :=
  ⟨a.x - b.x, a.y - b.y, a.z - b.z⟩

/-- Row-wise dot product, as in numpy (A * B).sum(axis=1). -/
def vdot (a b : Vec3) : ℚ :=
  a.x * b.x + a.y * b.y + a.z * b.z

/-- Row-wise cross product, as in numpy np.cross(A, B). -/
def vcross (a b : Vec3) : Vec3 :=
  ⟨a.y * b.z - a.z * b.y, a.z * b.x - a.x * b.z, a.x * b.y - a.y * b.x⟩

/-- The zero vector, used as the (unreachable) default of guarded gathers. -/
def vzero : Vec3 := ⟨0, 0, 0⟩

/-- One row of the integer face array: the three vertex indices of a
triangle. -/
structure Face where
  i0 : Nat
  i1 : Nat
  i2 : Nat
deriving DecidableEq, Repr

/-- The 1e-6 epsilon of the intersection test (exactly representable here;
the Python literal 1e-6 is the nearest double, but no concrete value in this
development lands between the two). -/
def mtEps : ℚ := 1 / 1000000

/-- det of the Moller-Trumbore style test of intersect_triangles, per face:
N = np.cross(E1, E2); det = -((RD - RO) * N).sum(axis=1)
with E1 = B - A, E2 = C - A, RO = ray_start, RD = ray_end. -/
def mtDet (rs re a b c : Vec3) : ℚ :=
  -(vdot (vsub re rs) (vcross (vsub b a) (vsub c a)))

/-- Barycentric u of intersect_triangles, per face:
DAO = np.cross(AO, RD - RO); u = (E2 * DAO).sum(1) * inv_det
with AO = RO - A. (Division by a zero det never reaches the result: the code
only evaluates u on faces whose det is nonzero.) -/
def mtU (rs re a b c : Vec3) : ℚ :=
  vdot (vsub c a) (vcross (vsub rs a) (vsub re rs)) * (1 / mtDet rs re a b c)

/-- Barycentric v of intersect_triangles, per face:
v = -(E1 * DAO).sum(1) * inv_det. -/
def mtV (rs re a b c : Vec3) : ℚ :=
  -(vdot (vsub b a) (vcross (vsub rs a) (vsub re rs))) * (1 / mtDet rs re a b c)

/-- Ray parameter t of intersect_triangles, per face:
t = (AO * N).sum(1) * inv_det. -/
def mtT (rs re a b c : Vec3) : ℚ :=
  vdot (vsub rs a) (vcross (vsub b a) (vsub c a)) * (1 / mtDet rs re a b c)

/-- The per-face acceptance conjunction assigned into the intersection mask:
(det >= 1e-6) & (t >= 0) & (u >= 0) & (v >= 0) & (u + v <= 1). -/
def mtPass (rs re a b c : Vec3) : Bool :=
  decide (mtEps ≤ mtDet rs re a b c) &&
  decide (0 ≤ mtT rs re a b c) &&
  decide (0 ≤ mtU rs re a b c) &&
  decide (0 ≤ mtV rs re a b c) &&
  decide (mtU rs re a b c + mtV rs re a b c ≤ 1)

/-- ViewerWidget.intersect_triangles (viewer_widget.py:143-176), embedded with
numpy's evaluation semantics made explicit:
* A = vertices[faces[:, 0]] (and B, C) raise IndexError if any index is out
  of range;
* det is computed for every face and valid_mask = det != 0;
* intersect = np.zeros(F, bool); if no det is nonzero the mask is returned
  as all-False;
* otherwise inv_det = 1 / det[valid_mask] has one entry per nonzero det, so
  u = (E2 * DAO).sum(1) * inv_det multiplies a length-F array with a
  length-k array: when k < F this, or the masked assignment
  intersect[valid_mask] = ..., raises a broadcast ValueError; only when every
  det is nonzero (k = F) does the computation go through, and then each entry
  of the returned mask is the per-face conjunction mtPass. -/
def intersect_triangles (ray_start ray_end : Vec3) (vertices : List Vec3)
    (faces : List Face) : Except PyError (List Bool) :=
  if faces.any (fun f => vertices.length ≤ f.i0 || vertices.length ≤ f.i1 ||
      vertices.length ≤ f.i2) then
    .error .indexError
  else
    let tri := faces.map (fun f =>
      (vertices.getD f.i0 vzero, vertices.getD f.i1 vzero, vertices.getD f.i2 vzero))
    let det := tri.map (fun t => mtDet ray_start ray_end t.1 t.2.1 t.2.2)
    if det.any (fun d => decide (d ≠ 0)) then
      if det.all (fun d => decide (d ≠ 0)) then
        .ok (tri.map (fun t => mtPass ray_start ray_end t.1 t.2.1 t.2.2))
      else
        .error .valueError
    else
      .ok (det.map (fun _ => false))

/-- numpy boolean-mask selection xs[m]: keeps the entries of xs at the
positions where the mask is True (the two arrays have equal length whenever
this appears below). -/
def mask_filter {α : Type} : List α → List Bool → List α
  | x :: xs, b :: ms => if b then x :: mask_filter xs ms else mask_filter xs ms
  | _, _ => []

/-- Helper of argmin: current best index, current best value, index of the
next element. np.argmin keeps the FIRST occurrence of the minimum, hence the
strict comparison. -/
def argminGo : List ℚ → Nat → ℚ → Nat → Nat
  | [], bi, _, _ => bi
  | q :: qs, bi, best, i =>
    if q < best then argminGo qs i q (i + 1) else argminGo qs bi best (i + 1)

/-- np.argmin over a 1-d array: index of the first minimum (only applied to
nonempty arrays below, matching the np.any guard in the source). -/
def argmin : List ℚ → Nat
  | [] => 0
  | q :: qs => argminGo qs 0 q 1

/-- The per-vertex expression of viewer_widget.py:301-303:
((projected_vertices[selected_triangle][:, :2] - cursor).sum(1)) ** 2,
the square of the SUM of the two per-coordinate pixel differences. -/
def pickMetric (p : Vec3) (cx cy : ℚ) : ℚ :=
  ((p.x - cx) + (p.y - cy)) ^ 2

/-- The per-vertex metric the specification asks for: the summed SQUARED
pixel distance dx^2 + dy^2 to the cursor. -/
def claimMetric (p : Vec3) (cx cy : ℚ) : ℚ :=
  (p.x - cx) ^ 2 + (p.y - cy) ^ 2

/-- The face and vertex selection step of paintGL (viewer_widget.py:294-303),
parameterized by the per-vertex metric so that the source's metric and the
specified one can be compared:
* faces_candidates = self.faces[intersections]
* triangle_positions = projected_vertices[faces_candidates].mean(axis=1);
  tri_sel = np.argmin(triangle_positions[:, 2]) (mean of the three z entries)
* selected_triangle = faces_candidates[tri_sel]
* selected_idx = selected_triangle[np.argmin(metric of each of the three
  projected vertices against the cursor)]
Returns none when no face is intersected (the np.any guard). -/
def pick_selection (metric : Vec3 → ℚ → ℚ → ℚ) (projected : List Vec3)
    (faces : List Face) (intersections : List Bool) (cx cy : ℚ) :
    Option (Face × Nat) :=
  if intersections.any id then
    let faces_candidates := mask_filter faces intersections
    let triangle_positions_z := faces_candidates.map (fun f =>
      ((projected.getD f.i0 vzero).z + (projected.getD f.i1 vzero).z +
       (projected.getD f.i2 vzero).z) / 3)
    let tri_sel := argmin triangle_positions_z
    let selected_triangle := faces_candidates.getD tri_sel ⟨0, 0, 0⟩
    let dists := [metric (projected.getD selected_triangle.i0 vzero) cx cy,
                  metric (projected.getD selected_triangle.i1 vzero) cx cy,
                  metric (projected.getD selected_triangle.i2 vzero) cx cy]
    some (selected_triangle,
      [selected_triangle.i0, selected_triangle.i1, selected_triangle.i2].getD
        (argmin dists) 0)
  else
    none

/-- The back-face culling mask of paintGL (viewer_widget.py:325-326):
((self.face_positions - self.camera.get_position()) * self.face_normals)
.sum(axis=1) < 0, one Boolean per face. -/
def visible_face_mask (face_positions face_normals : List Vec3)
    (camera_pos : Vec3) : List Bool :=
  (face_positions.zip face_normals).map (fun p =>
    decide (vdot (vsub p.1 camera_pos) p.2 < 0))

/-- The vertex indices drawn as labels by paintGL (viewer_widget.py:322-342)
when self.draw_indices_distance > 0; n is the number of vertices:
* indices = np.arange(n)
* visible_idx = np.unique(self.faces[visible_face_idx]); visible_mask is the
  scatter of True onto those indices (well defined when all face indices are
  below n; numpy raises IndexError otherwise)
* all_valid_idx = visible_mask & in_range_mask; both projected_vertices and
  indices are filtered by it
* draw_dist_idx = projected_vertices[:, 2] < self.draw_indices_distance
* each surviving index is drawn unless it equals selected_idx. -/
def label_indices (n : Nat) (projected : List Vec3) (in_range : List Bool)
    (faces : List Face) (face_positions face_normals : List Vec3)
    (camera_pos : Vec3) (threshold : ℚ) (selected : Option Nat) : List Nat :=
  let indices := List.range n
  let visible_faces := mask_filter faces
    (visible_face_mask face_positions face_normals camera_pos)
  let visible_mask := indices.map (fun i =>
    visible_faces.any (fun f => f.i0 == i || f.i1 == i || f.i2 == i))
  let all_valid := List.zipWith and visible_mask in_range
  let projected2 := mask_filter projected all_valid
  let indices2 := mask_filter indices all_valid
  let draw_dist := projected2.map (fun p => decide (p.z < threshold))
  let indices_draw := mask_filter indices2 draw_dist
  indices_draw.filter (fun i =>
    match selected with
    | none => true
    | some s => decide (i ≠ s))

/-- Membership in the label set exactly as the claim words it (including its
reading of the culling test: a face is visible iff the vector FROM the face
centroid TO the camera position, camera_pos - centroid, dotted with the face
normal is negative). Written from the claim, to be compared with
label_indices, which is written from the source. -/
def claim_label_mem (n : Nat) (projected : List Vec3) (in_range : List Bool)
    (faces : List Face) (face_positions face_normals : List Vec3)
    (camera_pos : Vec3) (threshold : ℚ) (selected : Option Nat) (i : Nat) :
    Bool :=
  decide (i < n) &&
  ((faces.zip (face_positions.zip face_normals)).any (fun fp =>
    decide (vdot (vsub camera_pos fp.2.1) fp.2.2 < 0) &&
    (fp.1.i0 == i || fp.1.i1 == i || fp.1.i2 == i))) &&
  in_range.getD i false &&
  decide ((projected.getD i vzero).z < threshold) &&
  decide (selected ≠ some i)

/-- A Python dict as an association list with unique keys: lookup returns the
value of the first (and only) binding of the key. -/
def dict_get {κ β : Type} [DecidableEq κ] : List (κ × β) → κ → Option β
  | [], _ => none
  | kv :: l, k => if kv.1 = k then some kv.2 else dict_get l k

/-- Python dict assignment d[k] = v: replaces the binding in place if the key
exists, otherwise appends it (insertion order is preserved, as in CPython). -/
def dict_set {κ β : Type} [DecidableEq κ] : List (κ × β) → κ → β → List (κ × β)
  | [], k, v => [(k, v)]
  | kv :: l, k, v => if kv.1 = k then (k, v) :: l else kv :: dict_set l k v

/-- Python dict.pop(k) without default: removes the binding; the caller raises
KeyError when the key is absent (checked via dict_get at the call site). -/
def dict_pop {κ β : Type} [DecidableEq κ] : List (κ × β) → κ → List (κ × β)
  | [], _ => []
  | kv :: l, k => if kv.1 = k then l else kv :: dict_pop l k

/-- The opaque identifier returned by add_mesh.
Modelled from the spec: the GlMeshCoreId class lives in the repository's mesh
package, which is not part of the given sources; per the spec ids are minted
synchronously from monotonic next-ordinal counters. -/
structure GlMeshCoreId where
  core_id : Nat
deriving DecidableEq, Repr

/-- The opaque identifier returned by add_mesh_prefab; like the Python object
it exposes the core_id of its owning core, so get_mesh works on it.
Modelled from the spec: identity is (core id, prefab ordinal). -/
structure GlMeshPrefabId where
  core_id : Nat
  prefab_ordinal : Nat
deriving DecidableEq, Repr

/-- The opaque identifier returned by add_mesh_instance.
Modelled from the spec: identity is (prefab id, instance ordinal). -/
structure GlMeshInstanceId where
  core_id : Nat
  prefab_ordinal : Nat
  instance_ordinal : Nat
deriving DecidableEq, Repr

/-- A compiled shader registry entry.
Modelled from the spec: the ShaderProgram class (shader.py) is not part of the
given sources; immutable after load, identified by name. The Boolean
abstracts whether MeshGroup.add_prefab raises ValueError when handed this
shader (the except-ValueError arm of add_mesh_prefab_ is in the given source,
but what add_prefab validates is not, so its failure is kept abstract). -/
structure ShaderProgram where
  name : String
  add_prefab_value_error : Bool
deriving DecidableEq, Repr

/-- A value stored in a uniform map as it travels through the queue: the
repository binds both scalars and numpy vectors to uniform names (for example
add_wireframe_ binds the 3-vector line_color to lineColor). -/
inductive UniformValue where
  | int (value : Int)
  | vec3 (value : Vec3)
deriving DecidableEq, Repr

/-- One shading configuration of a core.
Modelled from the spec: selected shader, uniform map, vertex-attribute map,
face-attribute map, fill flag. -/
structure MeshPrefab where
  shader : ShaderProgram
  vertex_attributes : List (String × List Vec3)
  face_attributes : List (String × List Vec3)
  uniforms : List (String × UniformValue)
  fill : Bool
deriving DecidableEq, Repr

/-- A placed copy of a prefab.
Modelled from the spec: a model transform (None until first draw if never
set) and a visibility flag. -/
structure MeshInstance where
  model_matrix : Option (List (List ℚ))
  visible : Bool
deriving DecidableEq, Repr

/-- One mesh group: a core (vertices and faces) together with its prefabs and
instances. Modelled from the spec: the MeshGroup class is not part of the
given sources; prefabs are keyed by their prefab ordinal and instances by
(prefab ordinal, instance ordinal); lookups of absent keys fail with the
NotFoundError of the spec taxonomy (KeyError). -/
structure MeshGroup where
  vertices : List Vec3
  faces : List Face
  prefabs : List (Nat × MeshPrefab)
  instances : List ((Nat × Nat) × MeshInstance)
deriving DecidableEq, Repr

/-- MeshGroup.get_prefab: NotFoundError (KeyError) when the prefab ordinal is
absent. Modelled from the spec contract of the registry lookups. -/
def MeshGroup.get_prefab (g : MeshGroup) (pid : GlMeshPrefabId) :
    Except PyError MeshPrefab :=
  match dict_get g.prefabs pid.prefab_ordinal with
  | some p => .ok p
  | none => .error .keyError

/-- MeshGroup.get_instance, as for get_prefab. -/
def MeshGroup.get_instance (g : MeshGroup) (iid : GlMeshInstanceId) :
    Except PyError MeshInstance :=
  match dict_get g.instances (iid.prefab_ordinal, iid.instance_ordinal) with
  | some i => .ok i
  | none => .error .keyError

/-- MeshGroup.add_prefab. Modelled from the spec: builds the prefab from the
given maps, optionally using a copied prefab's maps as the base that the given
entries override, and may fail with ValueError (abstracted by the shader's
flag, see ShaderProgram). -/
def MeshGroup.add_prefab (g : MeshGroup) (pid : GlMeshPrefabId)
    (vertex_attributes face_attributes : List (String × List Vec3))
    (uniforms : List (String × UniformValue)) (shader : ShaderProgram) (fill : Bool)
    (copy_from : Option MeshPrefab) : Except PyError MeshGroup :=
  if shader.add_prefab_value_error then
    .error .valueError
  else
    let base_va := match copy_from with
      | some p => p.vertex_attributes
      | none => []
    let base_fa := match copy_from with
      | some p => p.face_attributes
      | none => []
    let base_un := match copy_from with
      | some p => p.uniforms
      | none => []
    let pf : MeshPrefab :=
      ⟨shader,
       vertex_attributes.foldl (fun m kv => dict_set m kv.1 kv.2) base_va,
       face_attributes.foldl (fun m kv => dict_set m kv.1 kv.2) base_fa,
       uniforms.foldl (fun m kv => dict_set m kv.1 kv.2) base_un,
       fill⟩
    .ok { g with prefabs := dict_set g.prefabs pid.prefab_ordinal pf }

/-- MeshGroup.add_instance. Modelled from the spec: stores the transform
(possibly not yet set) with visibility defaulting to visible. -/
def MeshGroup.add_instance (g : MeshGroup) (iid : GlMeshInstanceId)
    (model_matrix : Option (List (List ℚ))) : MeshGroup :=
  { g with instances := (dict_set g.instances
      (iid.prefab_ordinal, iid.instance_ordinal) ⟨model_matrix, true⟩) }

/-- MeshGroup.remove_prefab. Modelled from the spec: cascades removal to the
prefab's instances, leaving the core and sibling prefabs intact. -/
def MeshGroup.remove_prefab (g : MeshGroup) (pid : GlMeshPrefabId) : MeshGroup :=
  { g with prefabs := dict_pop g.prefabs pid.prefab_ordinal,
           instances := g.instances.filter
             (fun kv => decide (kv.1.1 ≠ pid.prefab_ordinal)) }

/-- MeshGroup.remove_instance. Modelled from the spec. -/
def MeshGroup.remove_instance (g : MeshGroup) (iid : GlMeshInstanceId) :
    MeshGroup :=
  { g with instances := (dict_pop g.instances
      (iid.prefab_ordinal, iid.instance_ordinal)) }

/-- One entry of the pre-draw queue self.mesh_events: the Python lists
[event_type, arg1, ...] of viewer_widget.py, as a closed tagged union. -/
inductive MeshEvent where
  | add_mesh (core_id : GlMeshCoreId) (vertices : List Vec3) (faces : List Face)
  | add_mesh_prefab (prefab_id : GlMeshPrefabId) (shader : String)
      (vertex_attributes face_attributes : List (String × List Vec3))
      (uniforms : List (String × UniformValue)) (fill : Bool)
      (copy_from : Option GlMeshPrefabId)
  | add_mesh_instance (instance_id : GlMeshInstanceId)
      (model_matrix : Option (List (List ℚ)))
  | update_mesh_vertices (core_id : GlMeshCoreId) (vertices : List Vec3)
  | update_mesh_prefab_uniform (prefab_id : GlMeshPrefabId) (name : String)
      (value : UniformValue)
  | update_mesh_prefab_vertex_attribute (prefab_id : GlMeshPrefabId)
      (name : String) (value : List Vec3)
  | update_mesh_prefab_face_attribute (prefab_id : GlMeshPrefabId)
      (name : String) (value : List Vec3)
  | update_mesh_instance_model (instance_id : GlMeshInstanceId)
      (model : List (List ℚ))
  | set_mesh_instance_visibility (instance_id : GlMeshInstanceId)
      (visibility : Bool)
  | remove_mesh (core_id : GlMeshCoreId)
  | remove_mesh_prefab (prefab_id : GlMeshPrefabId)
  | remove_mesh_instance (instance_id : GlMeshInstanceId)
  | add_wireframe (mesh_instance_id : GlMeshInstanceId) (line_color : Vec3)
  | clear_all
deriving DecidableEq, Repr

/-- The mutable state of one ViewerWidget that the embedded methods touch:
the shader registry, the mesh-group registry, the pre-draw queue, the picking
caches set synchronously by the producers, the next-ordinal counters of id
allocation (modelled from the spec, see GlMeshCoreId), and the diagnostics
printed so far. -/
structure ViewerState where
  shaders : List (String × ShaderProgram)
  mesh_groups : List (Nat × MeshGroup)
  mesh_events : List MeshEvent
  pick_vertices : Option (List Vec3)
  pick_faces : Option (List Face)
  pick_face_positions : Option (List Vec3)
  pick_face_normals : Option (List Vec3)
  next_core_ordinal : Nat
  next_prefab_ordinal : Nat
  next_instance_ordinal : Nat
  printed : List String
deriving DecidableEq, Repr

/-- The per-face centroid vertices[faces].mean(axis=1) computed by add_mesh
for self.face_positions. -/
def face_centroid (vertices : List Vec3) (f : Face) : Vec3 :=
  let a := vertices.getD f.i0 vzero
  let b := vertices.getD f.i1 vzero
  let c := vertices.getD f.i2 vzero
  ⟨(a.x + b.x + c.x) / 3, (a.y + b.y + c.y) / 3, (a.z + b.z + c.z) / 3⟩

/-- self.mesh_groups[core_id]: the dict lookup behind the three public
getters; KeyError when the id was removed or never applied. -/
def ViewerWidget.get_mesh_by_core (st : ViewerState) (core_id : Nat) :
    Except PyError MeshGroup :=
  match dict_get st.mesh_groups core_id with
  | some g => .ok g
  | none => .error .keyError

/-- ViewerWidget.get_mesh (viewer_widget.py:440-441). -/
def ViewerWidget.get_mesh (st : ViewerState) (mesh_id : GlMeshCoreId) :
    Except PyError MeshGroup :=
  ViewerWidget.get_mesh_by_core st mesh_id.core_id

/-- ViewerWidget.get_mesh_prefab (viewer_widget.py:443-444):
self.get_mesh(prefab_id).get_prefab(prefab_id); get_mesh reads the core_id
the prefab id exposes. -/
def ViewerWidget.get_mesh_prefab (st : ViewerState) (pid : GlMeshPrefabId) :
    Except PyError MeshPrefab :=
  match ViewerWidget.get_mesh_by_core st pid.core_id with
  | .ok g => g.get_prefab pid
  | .error e => .error e

/-- ViewerWidget.get_mesh_instance (viewer_widget.py:446-447). -/
def ViewerWidget.get_mesh_instance (st : ViewerState) (iid : GlMeshInstanceId) :
    Except PyError MeshInstance :=
  match ViewerWidget.get_mesh_by_core st iid.core_id with
  | .ok g => g.get_instance iid
  | .error e => .error e

/-- Writes an updated group back into the registry (the in-place mutation of
the Python objects, made explicit). -/
def ViewerWidget.set_group (st : ViewerState) (core_id : Nat) (g : MeshGroup) :
    ViewerState :=
  { st with mesh_groups := dict_set st.mesh_groups core_id g }

/-- ViewerWidget.add_mesh_ (viewer_widget.py:426-429): the astype conversions
are identities here; installs a fresh MeshGroup under the core id. -/
def ViewerWidget.add_mesh_apply (st : ViewerState) (core_id : GlMeshCoreId)
    (vertices : List Vec3) (faces : List Face) : ViewerState :=
  { st with mesh_groups := (dict_set st.mesh_groups core_id.core_id
      ⟨vertices, faces, [], []⟩) }

/-- ViewerWidget.add_mesh_prefab_ (viewer_widget.py:449-482):
* if shader in self.shaders fails, the body is skipped: NO prefab is created
  and nothing is raised;
* otherwise copy_from is resolved (a KeyError from get_mesh_prefab is not
  caught: only ValueError is) and add_prefab is attempted with the requested
  shader;
* on ValueError the error is printed and add_prefab is retried with
  self.shaders["default"], whose absence raises KeyError. -/
def ViewerWidget.add_mesh_prefab_apply (st : ViewerState)
    (prefab_id : GlMeshPrefabId) (shader : String)
    (vertex_attributes face_attributes : List (String × List Vec3))
    (uniforms : List (String × UniformValue)) (fill : Bool)
    (copy_from : Option GlMeshPrefabId) : Except PyError ViewerState :=
  match dict_get st.shaders shader with
  | none => .ok st
  | some sp =>
    let resolved : Except PyError (Option MeshPrefab) :=
      match copy_from with
      | none => .ok none
      | some cid =>
        match ViewerWidget.get_mesh_prefab st cid with
        | .ok p => .ok (some p)
        | .error e => .error e
    match resolved with
    | .error e => .error e
    | .ok cf =>
      match ViewerWidget.get_mesh_by_core st prefab_id.core_id with
      | .error e => .error e
      | .ok g =>
        match g.add_prefab prefab_id vertex_attributes face_attributes
            uniforms sp fill cf with
        | .ok g2 => .ok (ViewerWidget.set_group st prefab_id.core_id g2)
        | .error .valueError =>
          match dict_get st.shaders "default" with
          | none => .error .keyError
          | some dp =>
            match g.add_prefab prefab_id vertex_attributes face_attributes
                uniforms dp fill cf with
            | .ok g2 =>
              .ok { ViewerWidget.set_group st prefab_id.core_id g2 with
                    printed := st.printed ++ ["ValueError"] }
            | .error e => .error e
        | .error e => .error e

/-- ViewerWidget.add_mesh_instance_ (viewer_widget.py:511-512). -/
def ViewerWidget.add_mesh_instance_apply (st : ViewerState)
    (instance_id : GlMeshInstanceId) (model_matrix : Option (List (List ℚ))) :
    Except PyError ViewerState :=
  match ViewerWidget.get_mesh_by_core st instance_id.core_id with
  | .ok g => .ok (ViewerWidget.set_group st instance_id.core_id
      (g.add_instance instance_id model_matrix))
  | .error e => .error e

/-- ViewerWidget.update_mesh_vertices_ (viewer_widget.py:519-520). -/
def ViewerWidget.update_mesh_vertices_apply (st : ViewerState)
    (core_id : GlMeshCoreId) (vertices : List Vec3) :
    Except PyError ViewerState :=
  match ViewerWidget.get_mesh st core_id with
  | .ok g => .ok (ViewerWidget.set_group st core_id.core_id
      { g with vertices := vertices })
  | .error e => .error e

/-- ViewerWidget.update_mesh_prefab_uniform_ (viewer_widget.py:525-526):
self.get_mesh(prefab_id).get_prefab(prefab_id).update_uniform(name, value);
update_uniform overwrites one binding of the prefab's uniform map. -/
def ViewerWidget.update_mesh_prefab_uniform_apply (st : ViewerState)
    (prefab_id : GlMeshPrefabId) (name : String) (value : UniformValue) :
    Except PyError ViewerState :=
  match ViewerWidget.get_mesh_by_core st prefab_id.core_id with
  | .error e => .error e
  | .ok g =>
    match g.get_prefab prefab_id with
    | .error e => .error e
    | .ok pf =>
      .ok (ViewerWidget.set_group st prefab_id.core_id
        { g with prefabs := (dict_set g.prefabs prefab_id.prefab_ordinal
            { pf with uniforms := dict_set pf.uniforms name value }) })

/-- ViewerWidget.update_mesh_prefab_vertex_attribute_ (viewer_widget.py:
531-532): self.get_mesh(prefab_id).update_prefab_vertex_attribute(prefab_id,
name, value). The MeshGroup method lives in the mesh module absent from the
given sources; modelled from the spec: it overwrites one binding of the
prefab's vertex-attribute map, failing with the NotFoundError (KeyError) of
the registry lookups when the prefab is absent. -/
def ViewerWidget.update_mesh_prefab_vertex_attribute_apply (st : ViewerState)
    (prefab_id : GlMeshPrefabId) (name : String) (value : List Vec3) :
    Except PyError ViewerState :=
  match ViewerWidget.get_mesh_by_core st prefab_id.core_id with
  | .error e => .error e
  | .ok g =>
    match g.get_prefab prefab_id with
    | .error e => .error e
    | .ok pf =>
      .ok (ViewerWidget.set_group st prefab_id.core_id
        { g with prefabs := (dict_set g.prefabs prefab_id.prefab_ordinal
            { pf with vertex_attributes :=
                dict_set pf.vertex_attributes name value }) })

/-- ViewerWidget.update_mesh_prefab_face_attribute_ (viewer_widget.py:
539-540): as for the vertex-attribute update, on the prefab's face-attribute
map (the MeshGroup method is modelled from the spec). -/
def ViewerWidget.update_mesh_prefab_face_attribute_apply (st : ViewerState)
    (prefab_id : GlMeshPrefabId) (name : String) (value : List Vec3) :
    Except PyError ViewerState :=
  match ViewerWidget.get_mesh_by_core st prefab_id.core_id with
  | .error e => .error e
  | .ok g =>
    match g.get_prefab prefab_id with
    | .error e => .error e
    | .ok pf =>
      .ok (ViewerWidget.set_group st prefab_id.core_id
        { g with prefabs := (dict_set g.prefabs prefab_id.prefab_ordinal
            { pf with face_attributes :=
                dict_set pf.face_attributes name value }) })

/-- ViewerWidget.update_mesh_instance_model_ (viewer_widget.py:547-548). -/
def ViewerWidget.update_mesh_instance_model_apply (st : ViewerState)
    (instance_id : GlMeshInstanceId) (model : List (List ℚ)) :
    Except PyError ViewerState :=
  match ViewerWidget.get_mesh_by_core st instance_id.core_id with
  | .error e => .error e
  | .ok g =>
    match g.get_instance instance_id with
    | .error e => .error e
    | .ok inst =>
      .ok (ViewerWidget.set_group st instance_id.core_id
        { g with instances := (dict_set g.instances
            (instance_id.prefab_ordinal, instance_id.instance_ordinal)
            { inst with model_matrix := some model }) })

/-- ViewerWidget.set_mesh_instance_visibility_ (viewer_widget.py:553-554). -/
def ViewerWidget.set_mesh_instance_visibility_apply (st : ViewerState)
    (instance_id : GlMeshInstanceId) (visibility : Bool) :
    Except PyError ViewerState :=
  match ViewerWidget.get_mesh_by_core st instance_id.core_id with
  | .error e => .error e
  | .ok g =>
    match g.get_instance instance_id with
    | .error e => .error e
    | .ok inst =>
      .ok (ViewerWidget.set_group st instance_id.core_id
        { g with instances := (dict_set g.instances
            (instance_id.prefab_ordinal, instance_id.instance_ordinal)
            { inst with visible := visibility }) })

/-- ViewerWidget.remove_mesh_ (viewer_widget.py:562-563):
self.mesh_groups.pop(core_id.core_id); dict.pop without a default raises
KeyError on an absent key. -/
def ViewerWidget.remove_mesh_apply (st : ViewerState)
    (core_id : GlMeshCoreId) : Except PyError ViewerState :=
  match dict_get st.mesh_groups core_id.core_id with
  | some _ => .ok { st with mesh_groups := dict_pop st.mesh_groups core_id.core_id }
  | none => .error .keyError

/-- ViewerWidget.remove_mesh_prefab_ (viewer_widget.py:568-569). -/
def ViewerWidget.remove_mesh_prefab_apply (st : ViewerState)
    (prefab_id : GlMeshPrefabId) : Except PyError ViewerState :=
  match ViewerWidget.get_mesh_by_core st prefab_id.core_id with
  | .ok g => .ok (ViewerWidget.set_group st prefab_id.core_id
      (g.remove_prefab prefab_id))
  | .error e => .error e

/-- ViewerWidget.remove_mesh_instance_ (viewer_widget.py:574-575). -/
def ViewerWidget.remove_mesh_instance_apply (st : ViewerState)
    (instance_id : GlMeshInstanceId) : Except PyError ViewerState :=
  match ViewerWidget.get_mesh_by_core st instance_id.core_id with
  | .ok g => .ok (ViewerWidget.set_group st instance_id.core_id
      (g.remove_instance instance_id))
  | .error e => .error e

/-- ViewerWidget.clear_all_ (viewer_widget.py:580-581). -/
def ViewerWidget.clear_all_apply (st : ViewerState) : ViewerState :=
  { st with mesh_groups := [] }

/-- ViewerWidget.add_mesh (viewer_widget.py:431-438): synchronously updates
the picking caches (self.vertices gets a homogeneous-1 column appended, which
the Vec3 rows leave implicit), mints the core id, enqueues the deferred
add_mesh command carrying that id, and returns the id. -/
def ViewerWidget.add_mesh (st : ViewerState) (vertices : List Vec3)
    (faces : List Face) : GlMeshCoreId × ViewerState :=
  let core_id : GlMeshCoreId := ⟨st.next_core_ordinal⟩
  (core_id,
   { st with
     pick_vertices := some vertices,
     pick_faces := some faces,
     pick_face_positions := some (faces.map (face_centroid vertices)),
     next_core_ordinal := st.next_core_ordinal + 1,
     mesh_events := st.mesh_events ++ [.add_mesh core_id vertices faces] })

/-- ViewerWidget.add_mesh_prefab (viewer_widget.py:484-509): synchronously
caches face_attributes["normal"] when present, mints the prefab id, enqueues
the deferred command carrying that id, and returns the id. -/
def ViewerWidget.add_mesh_prefab (st : ViewerState) (core_id : GlMeshCoreId)
    (shader : String)
    (vertex_attributes face_attributes : List (String × List Vec3))
    (uniforms : List (String × UniformValue)) (fill : Bool)
    (copy_from : Option GlMeshPrefabId) : GlMeshPrefabId × ViewerState :=
  let prefab_id : GlMeshPrefabId := ⟨core_id.core_id, st.next_prefab_ordinal⟩
  (prefab_id,
   { st with
     pick_face_normals :=
       match dict_get face_attributes "normal" with
       | some ns => some ns
       | none => st.pick_face_normals,
     next_prefab_ordinal := st.next_prefab_ordinal + 1,
     mesh_events := st.mesh_events ++
       [.add_mesh_prefab prefab_id shader vertex_attributes face_attributes
          uniforms fill copy_from] })

/-- ViewerWidget.add_mesh_instance (viewer_widget.py:514-517). -/
def ViewerWidget.add_mesh_instance (st : ViewerState)
    (prefab_id : GlMeshPrefabId) (model_matrix : Option (List (List ℚ))) :
    GlMeshInstanceId × ViewerState :=
  let instance_id : GlMeshInstanceId :=
    ⟨prefab_id.core_id, prefab_id.prefab_ordinal, st.next_instance_ordinal⟩
  (instance_id,
   { st with
     next_instance_ordinal := st.next_instance_ordinal + 1,
     mesh_events := st.mesh_events ++ [.add_mesh_instance instance_id model_matrix] })

/-- ViewerWidget.update_mesh_vertices (viewer_widget.py:522-523). -/
def ViewerWidget.update_mesh_vertices (st : ViewerState)
    (core_id : GlMeshCoreId) (vertices : List Vec3) : Unit × ViewerState :=
  ((), { st with mesh_events := st.mesh_events ++
      [.update_mesh_vertices core_id vertices] })

/-- ViewerWidget.update_mesh_prefab_uniform (viewer_widget.py:528-529). -/
def ViewerWidget.update_mesh_prefab_uniform (st : ViewerState)
    (prefab_id : GlMeshPrefabId) (name : String) (value : UniformValue) :
    Unit × ViewerState :=
  ((), { st with mesh_events := st.mesh_events ++
      [.update_mesh_prefab_uniform prefab_id name value] })

/-- ViewerWidget.update_mesh_instance_model (viewer_widget.py:550-551). -/
def ViewerWidget.update_mesh_instance_model (st : ViewerState)
    (instance_id : GlMeshInstanceId) (model : List (List ℚ)) :
    Unit × ViewerState :=
  ((), { st with mesh_events := st.mesh_events ++
      [.update_mesh_instance_model instance_id model] })

/-- ViewerWidget.set_mesh_instance_visibility (viewer_widget.py:556-557). -/
def ViewerWidget.set_mesh_instance_visibility (st : ViewerState)
    (instance_id : GlMeshInstanceId) (visibility : Bool) : Unit × ViewerState :=
  ((), { st with mesh_events := st.mesh_events ++
      [.set_mesh_instance_visibility instance_id visibility] })

/-- ViewerWidget.remove_mesh (viewer_widget.py:565-566). -/
def ViewerWidget.remove_mesh (st : ViewerState) (core_id : GlMeshCoreId) :
    Unit × ViewerState :=
  ((), { st with mesh_events := st.mesh_events ++ [.remove_mesh core_id] })

/-- ViewerWidget.remove_mesh_prefab (viewer_widget.py:571-572). -/
def ViewerWidget.remove_mesh_prefab (st : ViewerState)
    (prefab_id : GlMeshPrefabId) : Unit × ViewerState :=
  ((), { st with mesh_events := st.mesh_events ++ [.remove_mesh_prefab prefab_id] })

/-- ViewerWidget.remove_mesh_instance (viewer_widget.py:577-578). -/
def ViewerWidget.remove_mesh_instance (st : ViewerState)
    (instance_id : GlMeshInstanceId) : Unit × ViewerState :=
  ((), { st with mesh_events := st.mesh_events ++
      [.remove_mesh_instance instance_id] })

/-- ViewerWidget.update_mesh_prefab_vertex_attribute (viewer_widget.py:
534-537). -/
def ViewerWidget.update_mesh_prefab_vertex_attribute (st : ViewerState)
    (prefab_id : GlMeshPrefabId) (name : String) (value : List Vec3) :
    Unit × ViewerState :=
  ((), { st with mesh_events := st.mesh_events ++
      [.update_mesh_prefab_vertex_attribute prefab_id name value] })

/-- ViewerWidget.update_mesh_prefab_face_attribute (viewer_widget.py:
542-545). -/
def ViewerWidget.update_mesh_prefab_face_attribute (st : ViewerState)
    (prefab_id : GlMeshPrefabId) (name : String) (value : List Vec3) :
    Unit × ViewerState :=
  ((), { st with mesh_events := st.mesh_events ++
      [.update_mesh_prefab_face_attribute prefab_id name value] })

/-- ViewerWidget.add_wireframe (viewer_widget.py:697-698). -/
def ViewerWidget.add_wireframe (st : ViewerState)
    (mesh_instance_id : GlMeshInstanceId) (line_color : Vec3) :
    Unit × ViewerState :=
  ((), { st with mesh_events := st.mesh_events ++
      [.add_wireframe mesh_instance_id line_color] })

/-- ViewerWidget.clear_all (viewer_widget.py:583-584). -/
def ViewerWidget.clear_all (st : ViewerState) : Unit × ViewerState :=
  ((), { st with mesh_events := st.mesh_events ++ [.clear_all] })

/-- ViewerWidget.add_wireframe_ (viewer_widget.py:700-709): a handler that
itself calls two producers, so it enqueues two further commands onto the
pre-draw queue while that queue is being drained:
* self.add_mesh_prefab(mesh_instance_id, "wireframe", fill=False,
  uniforms={lineColor: line_color}) — the instance id stands in for the core
  id, so the minted prefab id takes its core_id;
* self.get_mesh_instance(mesh_instance_id).get_model_matrix() — an uncaught
  KeyError if the instance is absent (by then the prefab command is already
  enqueued; this embedding tracks no state on error paths);
* self.add_mesh_instance with that matrix. -/
def ViewerWidget.add_wireframe_apply (st : ViewerState)
    (mesh_instance_id : GlMeshInstanceId) (line_color : Vec3) :
    Except PyError ViewerState :=
  let pr := ViewerWidget.add_mesh_prefab st ⟨mesh_instance_id.core_id⟩
    "wireframe" [] [] [("lineColor", UniformValue.vec3 line_color)] false none
  match ViewerWidget.get_mesh_instance pr.2 mesh_instance_id with
  | .error e => .error e
  | .ok inst =>
    .ok (ViewerWidget.add_mesh_instance pr.2 pr.1 inst.model_matrix).2

/-- The dispatch of process_mesh_events (viewer_widget.py:416-424): the event
tag selects the corresponding apply routine (getattr(self, tag + underscore));
the tagged union makes the dispatch exhaustive. -/
def apply_mesh_event (e : MeshEvent) (st : ViewerState) :
    Except PyError ViewerState :=
  match e with
  | .add_mesh cid v f => .ok (ViewerWidget.add_mesh_apply st cid v f)
  | .add_mesh_prefab pid sh va fa un fill cf =>
      ViewerWidget.add_mesh_prefab_apply st pid sh va fa un fill cf
  | .add_mesh_instance iid m => ViewerWidget.add_mesh_instance_apply st iid m
  | .update_mesh_vertices cid v => ViewerWidget.update_mesh_vertices_apply st cid v
  | .update_mesh_prefab_uniform pid n v =>
      ViewerWidget.update_mesh_prefab_uniform_apply st pid n v
  | .update_mesh_prefab_vertex_attribute pid n v =>
      ViewerWidget.update_mesh_prefab_vertex_attribute_apply st pid n v
  | .update_mesh_prefab_face_attribute pid n v =>
      ViewerWidget.update_mesh_prefab_face_attribute_apply st pid n v
  | .update_mesh_instance_model iid m =>
      ViewerWidget.update_mesh_instance_model_apply st iid m
  | .set_mesh_instance_visibility iid v =>
      ViewerWidget.set_mesh_instance_visibility_apply st iid v
  | .remove_mesh cid => ViewerWidget.remove_mesh_apply st cid
  | .remove_mesh_prefab pid => ViewerWidget.remove_mesh_prefab_apply st pid
  | .remove_mesh_instance iid => ViewerWidget.remove_mesh_instance_apply st iid
  | .add_wireframe iid col => ViewerWidget.add_wireframe_apply st iid col
  | .clear_all => .ok (ViewerWidget.clear_all_apply st)

/-- Drains a queue front to back, dispatching each event in turn; an uncaught
Python exception from a handler aborts the drain (only queue.Empty is caught
in the source loop). -/
def process_events_from (q : List MeshEvent) (st : ViewerState) :
    Except PyError ViewerState :=
  match q with
  | [] => .ok st
  | e :: rest =>
    match apply_mesh_event e st with
    | .ok st2 => process_events_from rest st2
    | .error err => .error err

/-- Termination weight of one queue entry: an applied add_wireframe command
spawns two further weight-1 commands, every other command spawns none. -/
def queueWeight : MeshEvent → Nat
  | .add_wireframe _ _ => 3
  | _ => 1

/-- Total weight of a queue. -/
def queueMeasure (q : List MeshEvent) : Nat :=
  (q.map queueWeight).sum

theorem queueMeasure_nil : queueMeasure [] = 0 := rfl

theorem queueMeasure_cons (e : MeshEvent) (q : List MeshEvent) :
    queueMeasure (e :: q) = queueWeight e + queueMeasure q := by
  simp [queueMeasure]

theorem queueMeasure_append (q1 q2 : List MeshEvent) :
    queueMeasure (q1 ++ q2) = queueMeasure q1 + queueMeasure q2 := by
  simp [queueMeasure]

/-- Dispatching one event either leaves the pre-draw queue unchanged (every
handler except add_wireframe_) or appends the two commands add_wireframe_
produces, so counting the popped event's own weight the total queue weight
strictly drops. -/
theorem apply_mesh_event_queue (e : MeshEvent) (st st2 : ViewerState)
    (h : apply_mesh_event e st = .ok st2) :
    queueMeasure st2.mesh_events + 1 ≤
      queueMeasure st.mesh_events + queueWeight e := by
  cases e <;>
    simp only [apply_mesh_event, ViewerWidget.add_mesh_apply,
      ViewerWidget.add_mesh_prefab_apply, ViewerWidget.add_mesh_instance_apply,
      ViewerWidget.update_mesh_vertices_apply,
      ViewerWidget.update_mesh_prefab_uniform_apply,
      ViewerWidget.update_mesh_prefab_vertex_attribute_apply,
      ViewerWidget.update_mesh_prefab_face_attribute_apply,
      ViewerWidget.update_mesh_instance_model_apply,
      ViewerWidget.set_mesh_instance_visibility_apply,
      ViewerWidget.remove_mesh_apply, ViewerWidget.remove_mesh_prefab_apply,
      ViewerWidget.remove_mesh_instance_apply, ViewerWidget.clear_all_apply,
      ViewerWidget.add_wireframe_apply, ViewerWidget.add_mesh_prefab,
      ViewerWidget.add_mesh_instance, ViewerWidget.get_mesh_instance,
      ViewerWidget.get_mesh_by_core, ViewerWidget.get_mesh,
      MeshGroup.get_instance, ViewerWidget.set_group] at h <;>
    (repeat' split at h) <;>
    (try simp only [Except.ok.injEq] at h) <;>
    first
    | (exact Except.noConfusion h)
    | (subst st2
       simp only [queueMeasure_append, queueMeasure_cons, queueMeasure_nil,
         queueWeight]
       omega)

/-- ViewerWidget.process_mesh_events (viewer_widget.py:416-424): pops from the
front of self.mesh_events and dispatches until the queue reports empty.
Commands that a handler enqueues during the drain (add_wireframe_) join at the
queue tail and are dispatched by the same loop; an uncaught handler exception
aborts the drain (only queue.Empty is caught in the source loop; this
embedding tracks no state on error paths). -/
def ViewerWidget.process_mesh_events (st : ViewerState) :
    Except PyError ViewerState :=
  match hq : st.mesh_events with
  | [] => .ok st
  | e :: rest =>
    match ha : apply_mesh_event e { st with mesh_events := rest } with
    | .ok st2 => ViewerWidget.process_mesh_events st2
    | .error err => .error err
termination_by queueMeasure st.mesh_events
decreasing_by
  rw [hq, queueMeasure_cons]
  have h2 : queueMeasure st2.mesh_events + 1 ≤
      queueMeasure rest + queueWeight e :=
    apply_mesh_event_queue e { st with mesh_events := rest } st2 ha
  omega

theorem process_mesh_events_nil (st : ViewerState) (h : st.mesh_events = []) :
    ViewerWidget.process_mesh_events st = .ok st := by
  rw [ViewerWidget.process_mesh_events.eq_def, h]

theorem process_mesh_events_cons (st : ViewerState) (e : MeshEvent)
    (rest : List MeshEvent) (h : st.mesh_events = e :: rest) :
    ViewerWidget.process_mesh_events st =
      (match apply_mesh_event e { st with mesh_events := rest } with
       | .ok st2 => ViewerWidget.process_mesh_events st2
       | .error err => .error err) := by
  rw [ViewerWidget.process_mesh_events.eq_def, h]
  split
  · rename_i hbad
    exact absurd hbad (by simp)
  · rename_i e2 rest2 heq
    injection heq with hh1 hh2
    subst hh1
    subst hh2
    cases hap : apply_mesh_event e { st with mesh_events := rest } with
    | ok st2 => simp [hap]
    | error err => simp [hap]

/-- The default color row 0.8, 0.2, 0.2 tiled per point by
display_point_cloud. -/
def defaultPointColor : Vec3 := ⟨4/5, 1/5, 1/5⟩

/-- The handling of the vertex_attributes default argument by
display_point_cloud (viewer_widget.py:634-648) when the caller OMITS the
argument. In Python the default dict is created once at function definition
and shared by every such call; the body mutates it:
if not "vertexColor" in vertex_attributes:
    vertex_attributes["vertexColor"] = np.tile(..., (points.shape[0], 1))
The first component of the result is the default dict after the call (the
state the next omitting call will see); the second is the dict the call
passes on to add_mesh_prefab (the same object). -/
def display_point_cloud_default_va (points_count : Nat)
    (d : List (String × List Vec3)) :
    (List (String × List Vec3)) × (List (String × List Vec3)) :=
  if (dict_get d "vertexColor").isSome then
    (d, d)
  else
    let d2 := dict_set d "vertexColor"
      (List.replicate points_count defaultPointColor)
    (d2, d2)

/-- What one omitting call would see under the behavior the claim states:
a fresh empty container per call. Written from the claim, to be compared with
display_point_cloud_default_va chained through the shared dict. -/
def display_point_cloud_fresh_va (points_count : Nat) :
    List (String × List Vec3) :=
  (display_point_cloud_default_va points_count []).2

theorem dict_get_set_self {κ β : Type} [DecidableEq κ] (l : List (κ × β))
    (k : κ) (v : β) : dict_get (dict_set l k v) k = some v := by
  induction l with
  | nil => simp [dict_set, dict_get]
  | cons kv l ih =>
    by_cases h : kv.1 = k
    · simp [dict_set, dict_get, h]
    · simp [dict_set, dict_get, h, ih]

theorem dict_get_set_ne {κ β : Type} [DecidableEq κ] (l : List (κ × β))
    (k k2 : κ) (v : β) (hne : k ≠ k2) :
    dict_get (dict_set l k v) k2 = dict_get l k2 := by
  induction l with
  | nil => simp [dict_set, dict_get, hne]
  | cons kv l ih =>
    by_cases h : kv.1 = k
    · simp [dict_set, dict_get, h, hne]
    · simp [dict_set, dict_get, h, ih]

/-- C6: every public mutation producer — the three add producers, all five
update producers (update_mesh_vertices, update_mesh_prefab_uniform,
update_mesh_prefab_vertex_attribute, update_mesh_prefab_face_attribute,
update_mesh_instance_model), set_mesh_instance_visibility, all three remove
producers, and also add_wireframe and clear_all — returns synchronously with
the mesh-group registry untouched, having only minted the new id (which the
enqueued command carries, so it exists before the command is applied) and
appended one command to the pre-draw queue; the registry is only written by
the render thread's drain (ViewerWidget.process_mesh_events through
apply_mesh_event). -/
theorem claim_C6_thin_producers (st : ViewerState) (v : List Vec3)
    (f : List Face) (cid : GlMeshCoreId) (pid : GlMeshPrefabId)
    (iid : GlMeshInstanceId) (sh : String)
    (va fa : List (String × List Vec3)) (un : List (String × UniformValue))
    (fill : Bool) (cf : Option GlMeshPrefabId) (nm : String) (val : UniformValue)
    (m : List (List ℚ)) (vis : Bool) (col : Vec3) :
    ((ViewerWidget.add_mesh st v f).2.mesh_groups = st.mesh_groups ∧
     (ViewerWidget.add_mesh st v f).2.mesh_events =
       st.mesh_events ++ [.add_mesh (ViewerWidget.add_mesh st v f).1 v f]) ∧
    ((ViewerWidget.add_mesh_prefab st cid sh va fa un fill cf).2.mesh_groups =
       st.mesh_groups ∧
     (ViewerWidget.add_mesh_prefab st cid sh va fa un fill cf).2.mesh_events =
       st.mesh_events ++
       [.add_mesh_prefab (ViewerWidget.add_mesh_prefab st cid sh va fa un fill cf).1
          sh va fa un fill cf]) ∧
    ((ViewerWidget.add_mesh_instance st pid m).2.mesh_groups = st.mesh_groups ∧
     (ViewerWidget.add_mesh_instance st pid m).2.mesh_events =
       st.mesh_events ++
       [.add_mesh_instance (ViewerWidget.add_mesh_instance st pid m).1 m]) ∧
    ((ViewerWidget.update_mesh_vertices st cid v).2.mesh_groups = st.mesh_groups ∧
     (ViewerWidget.update_mesh_vertices st cid v).2.mesh_events =
       st.mesh_events ++ [.update_mesh_vertices cid v]) ∧
    ((ViewerWidget.update_mesh_prefab_uniform st pid nm val).2.mesh_groups =
       st.mesh_groups ∧
     (ViewerWidget.update_mesh_prefab_uniform st pid nm val).2.mesh_events =
       st.mesh_events ++ [.update_mesh_prefab_uniform pid nm val]) ∧
    ((ViewerWidget.update_mesh_prefab_vertex_attribute st pid nm v).2.mesh_groups =
       st.mesh_groups ∧
     (ViewerWidget.update_mesh_prefab_vertex_attribute st pid nm v).2.mesh_events =
       st.mesh_events ++ [.update_mesh_prefab_vertex_attribute pid nm v]) ∧
    ((ViewerWidget.update_mesh_prefab_face_attribute st pid nm v).2.mesh_groups =
       st.mesh_groups ∧
     (ViewerWidget.update_mesh_prefab_face_attribute st pid nm v).2.mesh_events =
       st.mesh_events ++ [.update_mesh_prefab_face_attribute pid nm v]) ∧
    ((ViewerWidget.update_mesh_instance_model st iid m).2.mesh_groups =
       st.mesh_groups ∧
     (ViewerWidget.update_mesh_instance_model st iid m).2.mesh_events =
       st.mesh_events ++ [.update_mesh_instance_model iid m]) ∧
    ((ViewerWidget.set_mesh_instance_visibility st iid vis).2.mesh_groups =
       st.mesh_groups ∧
     (ViewerWidget.set_mesh_instance_visibility st iid vis).2.mesh_events =
       st.mesh_events ++ [.set_mesh_instance_visibility iid vis]) ∧
    ((ViewerWidget.remove_mesh st cid).2.mesh_groups = st.mesh_groups ∧
     (ViewerWidget.remove_mesh st cid).2.mesh_events =
       st.mesh_events ++ [.remove_mesh cid]) ∧
    ((ViewerWidget.remove_mesh_prefab st pid).2.mesh_groups = st.mesh_groups ∧
     (ViewerWidget.remove_mesh_prefab st pid).2.mesh_events =
       st.mesh_events ++ [.remove_mesh_prefab pid]) ∧
    ((ViewerWidget.remove_mesh_instance st iid).2.mesh_groups = st.mesh_groups ∧
     (ViewerWidget.remove_mesh_instance st iid).2.mesh_events =
       st.mesh_events ++ [.remove_mesh_instance iid]) ∧
    ((ViewerWidget.add_wireframe st iid col).2.mesh_groups = st.mesh_groups ∧
     (ViewerWidget.add_wireframe st iid col).2.mesh_events =
       st.mesh_events ++ [.add_wireframe iid col]) ∧
    ((ViewerWidget.clear_all st).2.mesh_groups = st.mesh_groups ∧
     (ViewerWidget.clear_all st).2.mesh_events =
       st.mesh_events ++ [.clear_all]) :=
  ⟨⟨rfl, rfl⟩, ⟨rfl, rfl⟩, ⟨rfl, rfl⟩, ⟨rfl, rfl⟩, ⟨rfl, rfl⟩, ⟨rfl, rfl⟩,
   ⟨rfl, rfl⟩, ⟨rfl, rfl⟩, ⟨rfl, rfl⟩, ⟨rfl, rfl⟩, ⟨rfl, rfl⟩, ⟨rfl, rfl⟩,
   ⟨rfl, rfl⟩, ⟨rfl, rfl⟩⟩

/-- C8: looking up a core id that is absent from the mesh-group registry
(removed or never applied) through any of the three public getters fails with
the KeyError realizing the spec's NotFoundError, surfaced to the caller. -/
theorem claim_C8_absent_lookup_fails (st : ViewerState) (mid : GlMeshCoreId)
    (pid : GlMeshPrefabId) (iid : GlMeshInstanceId)
    (h1 : dict_get st.mesh_groups mid.core_id = none)
    (h2 : dict_get st.mesh_groups pid.core_id = none)
    (h3 : dict_get st.mesh_groups iid.core_id = none) :
    ViewerWidget.get_mesh st mid = .error .keyError ∧
    ViewerWidget.get_mesh_prefab st pid = .error .keyError ∧
    ViewerWidget.get_mesh_instance st iid = .error .keyError := by
  refine ⟨?_, ?_, ?_⟩ <;>
    simp [ViewerWidget.get_mesh, ViewerWidget.get_mesh_prefab,
      ViewerWidget.get_mesh_instance, ViewerWidget.get_mesh_by_core, h1, h2, h3]

theorem claim_C8_witness :
    ViewerWidget.get_mesh ⟨[], [], [], none, none, none, none, 0, 0, 0, []⟩ ⟨5⟩ =
      .error .keyError ∧
    ViewerWidget.get_mesh_prefab ⟨[], [], [], none, none, none, none, 0, 0, 0, []⟩
      ⟨5, 0⟩ = .error .keyError ∧
    ViewerWidget.get_mesh_instance ⟨[], [], [], none, none, none, none, 0, 0, 0, []⟩
      ⟨5, 0, 0⟩ = .error .keyError :=
  claim_C8_absent_lookup_fails _ _ _ _ rfl rfl rfl

/-- C9 fails on the code: display_point_cloud's default vertex_attributes
dict is one shared Python object that the body mutates; after a first
omitting call with 2 points, a second omitting call with 3 points passes on
the container left behind by the first call (vertexColor tiled 2 rows), not
the fresh-container result (3 rows) the claim describes. -/
theorem claim_C9_counterexample :
    (display_point_cloud_default_va 3 (display_point_cloud_default_va 2 []).1).2 =
      (display_point_cloud_default_va 2 []).2 ∧
    (display_point_cloud_default_va 3 (display_point_cloud_default_va 2 []).1).2 ≠
      display_point_cloud_fresh_va 3 := by
  constructor
  · rfl
  · intro h
    simp only [display_point_cloud_default_va, display_point_cloud_fresh_va,
      dict_get, dict_set, List.replicate] at h
    simp at h

/-- C9 amended: successive omitting calls of display_point_cloud share one
default vertex_attributes container; the first omitting call installs
vertexColor sized to ITS point count and every later omitting call passes
that same container on unchanged (so later calls do not see fresh empty
containers, and the tiled color row count can disagree with their own point
count). -/
theorem claim_C9_amended (n1 n2 : Nat) :
    (display_point_cloud_default_va n2 (display_point_cloud_default_va n1 []).1).2 =
      (display_point_cloud_default_va n1 []).2 ∧
    (display_point_cloud_default_va n1 []).2 =
      [("vertexColor", List.replicate n1 defaultPointColor)] := by
  simp [display_point_cloud_default_va, dict_get, dict_set]

/-- C2: at the failing input (cursor at pixel (10,10); one intersected
triangle whose projected vertices sit at (13,7), (11,10), (30,30)) the code's
metric ((dx + dy) squared) selects vertex index 0, whose summed squared pixel
distance to the cursor is 18, while the metric the claim and spec state
(dx^2 + dy^2) selects vertex index 1 at distance 1: the code does not pick
the vertex closest to the cursor. -/
theorem claim_C2_code_evaluation :
    pick_selection pickMetric
      [⟨13, 7, 1/2⟩, ⟨11, 10, 1/2⟩, ⟨30, 30, 1/2⟩] [⟨0, 1, 2⟩] [true] 10 10 =
      some (⟨0, 1, 2⟩, 0) ∧
    pick_selection claimMetric
      [⟨13, 7, 1/2⟩, ⟨11, 10, 1/2⟩, ⟨30, 30, 1/2⟩] [⟨0, 1, 2⟩] [true] 10 10 =
      some (⟨0, 1, 2⟩, 1) ∧
    claimMetric ⟨11, 10, 1/2⟩ 10 10 < claimMetric ⟨13, 7, 1/2⟩ 10 10 := by
  refine ⟨?_, ?_, ?_⟩ <;>
    norm_num [pick_selection, pickMetric, claimMetric, mask_filter, argmin,
      argminGo, vzero]

/-- C3 fails on the code: with the triangle listed in the claim's order
(A,B,C) = ((0,0,0.5),(1,0,0.5),(0,1,0.5)) the determinant
-((ray_end - ray_start) dot cross(B-A, C-A)) equals -1, which is below the
1e-6 threshold, so the intersection test returns False for the cursor ray at
(0.25, 0.25) where the claim demands True. -/
theorem claim_C3_counterexample :
    intersect_triangles ⟨1/4, 1/4, 0⟩ ⟨1/4, 1/4, 1⟩
      [⟨0, 0, 1/2⟩, ⟨1, 0, 1/2⟩, ⟨0, 1, 1/2⟩] [⟨0, 1, 2⟩] = .ok [false] ∧
    mtDet ⟨1/4, 1/4, 0⟩ ⟨1/4, 1/4, 1⟩ ⟨0, 0, 1/2⟩ ⟨1, 0, 1/2⟩ ⟨0, 1, 1/2⟩ = -1 := by
  constructor
  · norm_num [intersect_triangles, mtPass, mtDet, mtU, mtV, mtT, mtEps,
      vdot, vcross, vsub, vzero]
  · norm_num [mtDet, vdot, vcross, vsub]

/-- C3 amended: the example only passes with the opposite winding. For the
face (0,2,1) over the same vertices (triangle (A,C,B), determinant +1) the
ray at pixel (0.25,0.25) intersects with barycentric u = v = 1/4 (both
nonnegative, sum at most 1) and the ray at (0.9,0.9) does not; with the
claim's listed winding (0,1,2) the test returns False for both rays. -/
theorem claim_C3_amended :
    intersect_triangles ⟨1/4, 1/4, 0⟩ ⟨1/4, 1/4, 1⟩
      [⟨0, 0, 1/2⟩, ⟨1, 0, 1/2⟩, ⟨0, 1, 1/2⟩] [⟨0, 2, 1⟩] = .ok [true] ∧
    mtU ⟨1/4, 1/4, 0⟩ ⟨1/4, 1/4, 1⟩ ⟨0, 0, 1/2⟩ ⟨0, 1, 1/2⟩ ⟨1, 0, 1/2⟩ = 1/4 ∧
    mtV ⟨1/4, 1/4, 0⟩ ⟨1/4, 1/4, 1⟩ ⟨0, 0, 1/2⟩ ⟨0, 1, 1/2⟩ ⟨1, 0, 1/2⟩ = 1/4 ∧
    intersect_triangles ⟨9/10, 9/10, 0⟩ ⟨9/10, 9/10, 1⟩
      [⟨0, 0, 1/2⟩, ⟨1, 0, 1/2⟩, ⟨0, 1, 1/2⟩] [⟨0, 2, 1⟩] = .ok [false] ∧
    intersect_triangles ⟨9/10, 9/10, 0⟩ ⟨9/10, 9/10, 1⟩
      [⟨0, 0, 1/2⟩, ⟨1, 0, 1/2⟩, ⟨0, 1, 1/2⟩] [⟨0, 1, 2⟩] = .ok [false] := by
  refine ⟨?_, ?_, ?_, ?_, ?_⟩ <;>
    norm_num [intersect_triangles, mtPass, mtDet, mtU, mtV, mtT, mtEps,
      vdot, vcross, vsub, vzero]

/-- C4: for every ray and every face (A,B,C), the intersection test marks the
face as intersected exactly when the determinant is at least 1e-6, the ray
parameter t is nonnegative, and the barycentric coordinates satisfy u >= 0,
v >= 0 and u + v <= 1 (so in particular every face with determinant below
1e-6, including the zero-determinant faces that never enter the masked
computation, is rejected). -/
theorem claim_C4_intersection_iff (rs re a b c : Vec3) :
    intersect_triangles rs re [a, b, c] [⟨0, 1, 2⟩] =
      .ok [mtPass rs re a b c] ∧
    (mtPass rs re a b c = true ↔
      (mtEps ≤ mtDet rs re a b c ∧ 0 ≤ mtT rs re a b c ∧
       0 ≤ mtU rs re a b c ∧ 0 ≤ mtV rs re a b c ∧
       mtU rs re a b c + mtV rs re a b c ≤ 1)) := by
  constructor
  · by_cases hd : mtDet rs re a b c = 0
    · simp [intersect_triangles, mtPass, hd, mtEps]
    · simp [intersect_triangles, hd]
  · simp [mtPass, Bool.and_eq_true, decide_eq_true_eq, and_assoc]

/-- C10: on a nonempty face set with in-range indices in which every face's
determinant is nonzero, intersect_triangles completes (no IndexError and no
broadcast shape mismatch between the det != 0 mask and the per-face arrays)
and returns one Boolean per face. -/
theorem claim_C10_total_on_nonzero_dets (rs re : Vec3) (vertices : List Vec3)
    (faces : List Face) (hne : faces ≠ [])
    (hidx : ∀ f ∈ faces, f.i0 < vertices.length ∧ f.i1 < vertices.length ∧
      f.i2 < vertices.length)
    (hdet : ∀ f ∈ faces, mtDet rs re (vertices.getD f.i0 vzero)
      (vertices.getD f.i1 vzero) (vertices.getD f.i2 vzero) ≠ 0) :
    ∃ bs, intersect_triangles rs re vertices faces = .ok bs ∧
      bs.length = faces.length := by
  refine ⟨(faces.map (fun f => (vertices.getD f.i0 vzero, vertices.getD f.i1 vzero,
      vertices.getD f.i2 vzero))).map (fun t => mtPass rs re t.1 t.2.1 t.2.2),
    ?_, by simp⟩
  have hguard : faces.any (fun f => vertices.length ≤ f.i0 ||
      vertices.length ≤ f.i1 || vertices.length ≤ f.i2) = false := by
    simp only [List.any_eq_false]
    intro f hf
    have h := hidx f hf
    simp [Nat.not_le, h.1, h.2.1, h.2.2]
  obtain ⟨f0, hf0⟩ : ∃ f, f ∈ faces := by
    cases faces with
    | nil => exact absurd rfl hne
    | cons f fs => exact ⟨f, List.mem_cons_self f fs⟩
  have hany : ((faces.map (fun f => (vertices.getD f.i0 vzero,
      vertices.getD f.i1 vzero, vertices.getD f.i2 vzero))).map
      (fun t => mtDet rs re t.1 t.2.1 t.2.2)).any
      (fun d => decide (d ≠ 0)) = true := by
    simp only [List.any_eq_true, List.mem_map, decide_eq_true_eq]
    exact ⟨_, ⟨_, ⟨f0, hf0, rfl⟩, rfl⟩, hdet f0 hf0⟩
  have hall : ((faces.map (fun f => (vertices.getD f.i0 vzero,
      vertices.getD f.i1 vzero, vertices.getD f.i2 vzero))).map
      (fun t => mtDet rs re t.1 t.2.1 t.2.2)).all
      (fun d => decide (d ≠ 0)) = true := by
    simp only [List.all_eq_true, List.mem_map, decide_eq_true_eq]
    rintro d ⟨t, ⟨f, hf, rfl⟩, rfl⟩
    exact hdet f hf
  simp only [intersect_triangles, hguard, Bool.false_eq_true, if_false,
    hany, hall, if_true]

theorem claim_C10_witness :
    ∃ bs, intersect_triangles ⟨1/4, 1/4, 0⟩ ⟨1/4, 1/4, 1⟩
        [⟨0, 0, 1/2⟩, ⟨1, 0, 1/2⟩, ⟨0, 1, 1/2⟩] [⟨0, 2, 1⟩] = .ok bs ∧
      bs.length = 1 :=
  claim_C10_total_on_nonzero_dets ⟨1/4, 1/4, 0⟩ ⟨1/4, 1/4, 1⟩
    [⟨0, 0, 1/2⟩, ⟨1, 0, 1/2⟩, ⟨0, 1, 1/2⟩] [⟨0, 2, 1⟩]
    (by simp)
    (by
      intro f hf
      simp only [List.mem_singleton] at hf
      subst hf
      exact ⟨by norm_num, by norm_num, by norm_num⟩)
    (by
      intro f hf
      simp only [List.mem_singleton] at hf
      subst hf
      norm_num [mtDet, vdot, vcross, vsub, vzero, List.getD])

/-- A state whose shader registry holds only "default" and whose registry has
one empty mesh group under core id 0. -/
def stC1 : ViewerState :=
  ⟨[("default", ⟨"default", false⟩)], [(0, ⟨[], [], [], []⟩)], [],
   none, none, none, none, 1, 0, 0, []⟩

/-- A state where the requested shader "lambert" exists but its add_prefab
raises ValueError, and "default" exists and succeeds. -/
def stC1b : ViewerState :=
  ⟨[("lambert", ⟨"lambert", true⟩), ("default", ⟨"default", false⟩)],
   [(0, ⟨[], [], [], []⟩)], [], none, none, none, none, 1, 1, 0, []⟩

/-- As stC1b but with no "default" shader registered. -/
def stC1c : ViewerState :=
  ⟨[("lambert", ⟨"lambert", true⟩)], [(0, ⟨[], [], [], []⟩)], [],
   none, none, none, none, 1, 1, 0, []⟩

/-- C1 fails on the code: with "default" registered and the requested shader
name "lambert" absent from the registry, add_mesh_prefab_ leaves the state
completely unchanged — no prefab bound to "default" is created, no diagnostic
is emitted, no error is raised: the command is silently skipped (the
if-shader-in-self.shaders guard has no else branch). -/
theorem claim_C1_counterexample :
    ViewerWidget.add_mesh_prefab_apply stC1 ⟨0, 0⟩ "lambert" [] [] [] true none =
      .ok stC1 ∧
    ViewerWidget.get_mesh_prefab stC1 ⟨0, 0⟩ = .error .keyError := by
  exact ⟨rfl, rfl⟩

/-- C1 amended: when the requested shader name is absent from the registry,
add_mesh_prefab_ silently creates no prefab and raises nothing. The
diagnostic-and-"default" fallback only runs when the requested shader IS
registered but add_prefab raises ValueError: then a diagnostic is printed and
the prefab is created with the "default" shader; if "default" is absent at
that point the call fails with KeyError (no ShaderNotFoundError exists in the
code). -/
theorem claim_C1_amended :
    (∀ (st : ViewerState) (pid : GlMeshPrefabId) (sh : String)
       (va fa : List (String × List Vec3)) (un : List (String × UniformValue))
       (fill : Bool) (cf : Option GlMeshPrefabId),
       dict_get st.shaders sh = none →
       ViewerWidget.add_mesh_prefab_apply st pid sh va fa un fill cf = .ok st) ∧
    (∀ (st : ViewerState) (pid : GlMeshPrefabId) (sh : String)
       (sp dp : ShaderProgram) (g : MeshGroup)
       (va fa : List (String × List Vec3)) (un : List (String × UniformValue))
       (fill : Bool),
       dict_get st.shaders sh = some sp → sp.add_prefab_value_error = true →
       dict_get st.shaders "default" = some dp →
       dp.add_prefab_value_error = false →
       dict_get st.mesh_groups pid.core_id = some g →
       ∃ st2, ViewerWidget.add_mesh_prefab_apply st pid sh va fa un fill none =
           .ok st2 ∧
         st2.printed = st.printed ++ ["ValueError"] ∧
         ∃ pf, ViewerWidget.get_mesh_prefab st2 pid = .ok pf ∧ pf.shader = dp) ∧
    (∀ (st : ViewerState) (pid : GlMeshPrefabId) (sh : String)
       (sp : ShaderProgram) (g : MeshGroup)
       (va fa : List (String × List Vec3)) (un : List (String × UniformValue))
       (fill : Bool),
       dict_get st.shaders sh = some sp → sp.add_prefab_value_error = true →
       dict_get st.shaders "default" = none →
       dict_get st.mesh_groups pid.core_id = some g →
       ViewerWidget.add_mesh_prefab_apply st pid sh va fa un fill none =
         .error .keyError) := by
  refine ⟨?_, ?_, ?_⟩
  · intro st pid sh va fa un fill cf h
    simp [ViewerWidget.add_mesh_prefab_apply, h]
  · intro st pid sh sp dp g va fa un fill h1 h2 h3 h4 h5
    simp only [ViewerWidget.add_mesh_prefab_apply, h1, h2, h3, h4, h5,
      ViewerWidget.get_mesh_by_core, MeshGroup.add_prefab, if_true, if_false,
      Bool.false_eq_true]
    refine ⟨_, rfl, rfl, ?_⟩
    simp only [ViewerWidget.get_mesh_prefab, ViewerWidget.get_mesh_by_core,
      MeshGroup.get_prefab, ViewerWidget.set_group, dict_get_set_self]
    exact ⟨_, rfl, rfl⟩
  · intro st pid sh sp g va fa un fill h1 h2 h3 h4
    simp [ViewerWidget.add_mesh_prefab_apply, h1, h2, h3, h4,
      ViewerWidget.get_mesh_by_core, MeshGroup.add_prefab]

theorem claim_C1_witness :
    ViewerWidget.add_mesh_prefab_apply stC1 ⟨0, 1⟩ "lambert" [] [] [] true none =
      .ok stC1 ∧
    (∃ st2, ViewerWidget.add_mesh_prefab_apply stC1b ⟨0, 0⟩ "lambert" [] [] []
        true none = .ok st2 ∧
      st2.printed = stC1b.printed ++ ["ValueError"] ∧
      ∃ pf, ViewerWidget.get_mesh_prefab st2 ⟨0, 0⟩ = .ok pf ∧
        pf.shader = ⟨"default", false⟩) ∧
    ViewerWidget.add_mesh_prefab_apply stC1c ⟨0, 0⟩ "lambert" [] [] [] true none =
      .error .keyError :=
  ⟨claim_C1_amended.1 stC1 ⟨0, 1⟩ "lambert" [] [] [] true none rfl,
   claim_C1_amended.2.1 stC1b ⟨0, 0⟩ "lambert" ⟨"lambert", true⟩
     ⟨"default", false⟩ ⟨[], [], [], []⟩ [] [] [] true rfl rfl rfl rfl rfl,
   claim_C1_amended.2.2 stC1c ⟨0, 0⟩ "lambert" ⟨"lambert", true⟩
     ⟨[], [], [], []⟩ [] [] [] true rfl rfl rfl rfl⟩

/-- C5: commands on the pre-draw queue are applied strictly in enqueue order
(draining a concatenation is draining the first part and then the second
from the resulting state, with no reordering or coalescing), and in
particular enqueuing update_mesh_prefab_uniform(A, name, v1) then (A, name,
v2) on an otherwise empty queue and draining leaves the prefab's uniform
bound to v2: last write wins by order. -/
theorem claim_C5_queue_order :
    (∀ (q1 q2 : List MeshEvent) (st : ViewerState),
       process_events_from (q1 ++ q2) st =
         (process_events_from q1 st).bind (fun st2 => process_events_from q2 st2)) ∧
    (∀ (st : ViewerState) (pid : GlMeshPrefabId) (g : MeshGroup)
       (pf : MeshPrefab) (name : String) (v1 v2 : UniformValue),
       st.mesh_events = [] →
       dict_get st.mesh_groups pid.core_id = some g →
       dict_get g.prefabs pid.prefab_ordinal = some pf →
       ∃ st3, ViewerWidget.process_mesh_events
           ((ViewerWidget.update_mesh_prefab_uniform
             ((ViewerWidget.update_mesh_prefab_uniform st pid name v1).2)
             pid name v2).2) = .ok st3 ∧
         ∃ pf3, ViewerWidget.get_mesh_prefab st3 pid = .ok pf3 ∧
           dict_get pf3.uniforms name = some v2) := by
  constructor
  · intro q1
    induction q1 with
    | nil => intro q2 st; simp [process_events_from, Except.bind]
    | cons e q1 ih =>
      intro q2 st
      simp only [List.cons_append, process_events_from]
      cases apply_mesh_event e st with
      | ok st2 => simpa using ih q2 st2
      | error err => simp [Except.bind]
  · intro st pid g pf name v1 v2 hq h2 h3
    simp only [ViewerWidget.update_mesh_prefab_uniform]
    rw [process_mesh_events_cons _
      (MeshEvent.update_mesh_prefab_uniform pid name v1)
      [MeshEvent.update_mesh_prefab_uniform pid name v2] (by simp [hq])]
    simp only [apply_mesh_event, ViewerWidget.update_mesh_prefab_uniform_apply,
      ViewerWidget.get_mesh_by_core, MeshGroup.get_prefab, h2, h3,
      ViewerWidget.set_group]
    rw [process_mesh_events_cons _
      (MeshEvent.update_mesh_prefab_uniform pid name v2) [] rfl]
    simp only [apply_mesh_event, ViewerWidget.update_mesh_prefab_uniform_apply,
      ViewerWidget.get_mesh_by_core, MeshGroup.get_prefab,
      ViewerWidget.set_group, dict_get_set_self]
    rw [process_mesh_events_nil _ rfl]
    refine ⟨_, rfl, ?_⟩
    simp only [ViewerWidget.get_mesh_prefab, ViewerWidget.get_mesh_by_core,
      MeshGroup.get_prefab, dict_get_set_self]
    exact ⟨_, rfl, dict_get_set_self _ _ _⟩

/-- A state with one mesh group under core id 0 holding one prefab under
ordinal 0 with an empty uniform map. -/
def stC5 : ViewerState :=
  ⟨[], [(0, ⟨[], [], [(0, ⟨⟨"default", false⟩, [], [], [], true⟩)], []⟩)], [],
   none, none, none, none, 1, 1, 0, []⟩

theorem claim_C5_witness :
    ∃ st3, ViewerWidget.process_mesh_events
        ((ViewerWidget.update_mesh_prefab_uniform
          ((ViewerWidget.update_mesh_prefab_uniform stC5 ⟨0, 0⟩ "x"
            (UniformValue.int 1)).2)
          ⟨0, 0⟩ "x" (UniformValue.int 2)).2) = .ok st3 ∧
      ∃ pf3, ViewerWidget.get_mesh_prefab st3 ⟨0, 0⟩ = .ok pf3 ∧
        dict_get pf3.uniforms "x" = some (UniformValue.int 2) :=
  claim_C5_queue_order.2 stC5 ⟨0, 0⟩ ⟨[], [], [(0, ⟨⟨"default", false⟩, [], [],
    [], true⟩)], []⟩ ⟨⟨"default", false⟩, [], [], [], true⟩ "x"
    (UniformValue.int 1) (UniformValue.int 2) rfl rfl rfl

theorem mask_filter_nil_left {α : Type} (m : List Bool) :
    mask_filter ([] : List α) m = [] := by
  cases m <;> rfl

theorem mask_filter_nil_right {α : Type} (xs : List α) :
    mask_filter xs [] = [] := by
  cases xs <;> rfl

theorem mask_filter_cons {α : Type} (x : α) (xs : List α) (b : Bool)
    (ms : List Bool) :
    mask_filter (x :: xs) (b :: ms) =
      if b then x :: mask_filter xs ms else mask_filter xs ms := rfl

/-- Positional characterization of numpy boolean-mask selection: an element is
in xs[m] exactly when it sits at some position (within both lengths) whose
mask entry is True. -/
theorem mem_mask_filter {α : Type} (xs : List α) (m : List Bool) (y : α) :
    y ∈ mask_filter xs m ↔
      ∃ j, j < xs.length ∧ j < m.length ∧ xs.getD j y = y ∧
        m.getD j false = true := by
  induction xs generalizing m with
  | nil =>
    rw [mask_filter_nil_left]
    simp
  | cons x xs ih =>
    cases m with
    | nil =>
      rw [mask_filter_nil_right]
      simp
    | cons b bs =>
      rw [mask_filter_cons]
      by_cases hb : b = true
      · rw [if_pos hb]
        constructor
        · intro hmem
          rcases List.mem_cons.mp hmem with h | h
          · exact ⟨0, by simp, by simp, by simp [h], by simp [hb]⟩
          · obtain ⟨j, h1, h2, h3, h4⟩ := (ih bs).mp h
            exact ⟨j + 1, by simp [h1], by simp [h2], by simpa using h3,
              by simpa using h4⟩
        · rintro ⟨j, h1, h2, h3, h4⟩
          cases j with
          | zero =>
            exact List.mem_cons.mpr (Or.inl (by simpa using h3.symm))
          | succ j =>
            refine List.mem_cons.mpr (Or.inr ((ih bs).mpr
              ⟨j, ?_, ?_, by simpa using h3, by simpa using h4⟩))
            · simpa using h1
            · simpa using h2
      · rw [if_neg hb]
        rw [ih bs]
        constructor
        · rintro ⟨j, h1, h2, h3, h4⟩
          exact ⟨j + 1, by simp [h1], by simp [h2], by simpa using h3,
            by simpa using h4⟩
        · rintro ⟨j, h1, h2, h3, h4⟩
          cases j with
          | zero =>
            rw [List.getD_cons_zero] at h4
            exact absurd h4 hb
          | succ j =>
            exact ⟨j, by simpa using h1, by simpa using h2,
              by simpa using h3, by simpa using h4⟩

/-- Filtering two parallel arrays by one mask and then filtering the first
result by a predicate mapped over the second is one combined mask over the
original arrays: the alignment fact behind the two-stage filtering of
indices and projected_vertices in paintGL. -/
theorem mask_filter_parallel {α β : Type} (xs : List α) (m : List Bool)
    (ps : List β) (q : β → Bool) :
    mask_filter (mask_filter xs m) ((mask_filter ps m).map q) =
      mask_filter xs (List.zipWith (fun b p => b && q p) m ps) := by
  induction xs generalizing m ps with
  | nil =>
    rw [mask_filter_nil_left, mask_filter_nil_left, mask_filter_nil_left]
  | cons x xs ih =>
    cases m with
    | nil =>
      rw [mask_filter_nil_right, mask_filter_nil_left, List.zipWith_nil_left,
        mask_filter_nil_right]
    | cons b bs =>
      cases ps with
      | nil =>
        rw [mask_filter_nil_left, List.map_nil, mask_filter_nil_right,
          List.zipWith_nil_right, mask_filter_nil_right]
      | cons p qs =>
        rw [mask_filter_cons, mask_filter_cons, List.zipWith_cons_cons,
          mask_filter_cons]
        by_cases hb : b = true
        · rw [if_pos hb, if_pos hb]
          rw [List.map_cons, mask_filter_cons, hb, Bool.true_and]
          by_cases hq : q p = true
          · rw [if_pos hq, if_pos hq, ih]
          · rw [if_neg hq, if_neg hq]
            exact ih bs qs
        · have hb2 : b = false := by
            cases b
            · rfl
            · exact absurd rfl hb
          rw [if_neg hb, if_neg hb, hb2, Bool.false_and,
            if_neg (by simp : ¬(false = true))]
          exact ih bs qs

/-- Specialization of mem_mask_filter to indices = np.arange(n): index i
survives the mask exactly when its own mask entry is True. -/
theorem mem_mask_filter_range (n : Nat) (m : List Bool) (i : Nat) :
    i ∈ mask_filter (List.range n) m ↔
      i < n ∧ i < m.length ∧ m.getD i false = true := by
  rw [mem_mask_filter]
  constructor
  · rintro ⟨j, h1, h2, h3, h4⟩
    rw [List.length_range] at h1
    rw [List.getD_eq_getElem _ _ (by simpa using h1), List.getElem_range] at h3
    subst h3
    exact ⟨h1, h2, h4⟩
  · rintro ⟨h1, h2, h3⟩
    refine ⟨i, by simpa using h1, h2, ?_, h3⟩
    rw [List.getD_eq_getElem _ _ (by simpa using h1), List.getElem_range]

/-- The final per-index exclusion of the selected vertex in the label loop. -/
theorem sel_filter_iff (sel : Option Nat) (i : Nat) :
    ((match sel with
      | none => true
      | some s => decide (i ≠ s)) = true) ↔ sel ≠ some i := by
  cases sel with
  | none => simp
  | some s =>
    simp only [decide_eq_true_eq, ne_eq, Option.some.injEq]
    constructor
    · intro h hsi
      exact h hsi.symm
    · intro h his
      exact h his.symm

/-- A vertex index belongs to some back-face-culling-visible face exactly when
some face position j carries a face containing it whose centroid-to-camera
subtraction dotted with its normal is negative. -/
theorem visible_any_iff (faces : List Face) (fp fn : List Vec3) (cam : Vec3)
    (i : Nat) (h3 : fp.length = faces.length) (h4 : fn.length = faces.length) :
    ((mask_filter faces (visible_face_mask fp fn cam)).any
      (fun f => f.i0 == i || f.i1 == i || f.i2 == i) = true) ↔
    ∃ j, j < faces.length ∧
      vdot (vsub (fp.getD j vzero) cam) (fn.getD j vzero) < 0 ∧
      ((faces.getD j ⟨0, 0, 0⟩).i0 = i ∨ (faces.getD j ⟨0, 0, 0⟩).i1 = i ∨
       (faces.getD j ⟨0, 0, 0⟩).i2 = i) := by
  have hvlen : (visible_face_mask fp fn cam).length = faces.length := by
    simp [visible_face_mask, h3, h4]
  rw [List.any_eq_true]
  constructor
  · rintro ⟨f, hf, hpred⟩
    rw [mem_mask_filter] at hf
    obtain ⟨j, hj1, hj2, hj3, hj4⟩ := hf
    rw [hvlen] at hj2
    have hjfp : j < fp.length := by omega
    have hjfn : j < fn.length := by omega
    have hmask : vdot (vsub (fp.getD j vzero) cam) (fn.getD j vzero) < 0 := by
      rw [List.getD_eq_getElem _ _ (by rw [hvlen]; exact hj2)] at hj4
      simp only [visible_face_mask, List.getElem_map, List.getElem_zip,
        decide_eq_true_eq] at hj4
      rwa [List.getD_eq_getElem _ _ hjfp, List.getD_eq_getElem _ _ hjfn]
    have hface : faces.getD j ⟨0, 0, 0⟩ = f := by
      rw [List.getD_eq_getElem _ _ hj1] at hj3 ⊢
      exact hj3
    refine ⟨j, hj1, hmask, ?_⟩
    rw [hface]
    simpa [beq_iff_eq, or_assoc] using hpred
  · rintro ⟨j, hj1, hdot, hor⟩
    have hjfp : j < fp.length := by omega
    have hjfn : j < fn.length := by omega
    refine ⟨faces.getD j ⟨0, 0, 0⟩, ?_, ?_⟩
    · rw [mem_mask_filter]
      refine ⟨j, hj1, by rw [hvlen]; exact hj1, ?_, ?_⟩
      · rw [List.getD_eq_getElem _ _ hj1, List.getD_eq_getElem _ _ hj1]
      · rw [List.getD_eq_getElem _ _ (by rw [hvlen]; exact hj1)]
        simp only [visible_face_mask, List.getElem_map, List.getElem_zip,
          decide_eq_true_eq]
        rwa [List.getD_eq_getElem _ _ hjfp, List.getD_eq_getElem _ _ hjfn] at hdot
    · simpa [beq_iff_eq, or_assoc] using hor

/-- C7 fails on the code as worded: a scene with the camera at (0,0,1), one
face with centroid (0,0,0) and normal (0,0,1) has its centroid-to-camera
vector (0,0,1) with POSITIVE dot against the normal, so under the claim's
wording the face is invisible and vertex 0 must not be labeled; the code
computes (centroid - camera) dot normal = -1 < 0, treats the face as visible
and labels vertex 0 (threshold 1 > 0, everything in range, no selection). -/
theorem claim_C7_counterexample :
    (0 ∈ label_indices 3 [⟨0, 0, 0⟩, ⟨0, 0, 0⟩, ⟨0, 0, 0⟩] [true, true, true]
      [⟨0, 1, 2⟩] [⟨0, 0, 0⟩] [⟨0, 0, 1⟩] ⟨0, 0, 1⟩ 1 none) ∧
    claim_label_mem 3 [⟨0, 0, 0⟩, ⟨0, 0, 0⟩, ⟨0, 0, 0⟩] [true, true, true]
      [⟨0, 1, 2⟩] [⟨0, 0, 0⟩] [⟨0, 0, 1⟩] ⟨0, 0, 1⟩ 1 none 0 = false := by
  constructor
  · norm_num [label_indices, visible_face_mask, mask_filter, vdot, vsub, vzero,
      List.range_succ]
  · norm_num [claim_label_mem, vdot, vsub, vzero]

/-- C7 amended: with the culling direction as the code computes it (a face is
visible iff (centroid - camera) dot normal is negative, i.e. the vector from
the CAMERA to the centroid against the normal), the exposed label set is
exactly the vertices of at least one visible face, intersected with
in_range_mask, restricted to projected depth below the threshold, excluding
the selected vertex. -/
theorem claim_C7_amended (n : Nat) (projected : List Vec3)
    (in_range : List Bool) (faces : List Face) (fp fn : List Vec3) (cam : Vec3)
    (thr : ℚ) (sel : Option Nat) (i : Nat)
    (h1 : projected.length = n) (h2 : in_range.length = n)
    (h3 : fp.length = faces.length) (h4 : fn.length = faces.length)
    (h5 : 0 < thr)
    (h6 : ∀ f ∈ faces, f.i0 < n ∧ f.i1 < n ∧ f.i2 < n) :
    i ∈ label_indices n projected in_range faces fp fn cam thr sel ↔
      (i < n ∧
       (∃ j, j < faces.length ∧
         vdot (vsub (fp.getD j vzero) cam) (fn.getD j vzero) < 0 ∧
         ((faces.getD j ⟨0, 0, 0⟩).i0 = i ∨ (faces.getD j ⟨0, 0, 0⟩).i1 = i ∨
          (faces.getD j ⟨0, 0, 0⟩).i2 = i)) ∧
       in_range.getD i false = true ∧
       (projected.getD i vzero).z < thr ∧
       sel ≠ some i) := by
  simp only [label_indices]
  rw [mask_filter_parallel]
  simp only [List.mem_filter, mem_mask_filter_range]
  rw [sel_filter_iff]
  have hMlen : (List.zipWith (fun b p => b && decide (p.z < thr))
      (List.zipWith and ((List.range n).map (fun j =>
        (mask_filter faces (visible_face_mask fp fn cam)).any
          (fun f => f.i0 == j || f.i1 == j || f.i2 == j))) in_range)
      projected).length = n := by
    simp [h1, h2]
  rw [hMlen]
  by_cases hin : i < n
  · have hiP : i < projected.length := by omega
    have hiR : i < in_range.length := by omega
    have hiM : i < (List.zipWith (fun b p => b && decide (p.z < thr))
        (List.zipWith and ((List.range n).map (fun j =>
          (mask_filter faces (visible_face_mask fp fn cam)).any
            (fun f => f.i0 == j || f.i1 == j || f.i2 == j))) in_range)
        projected).length := by rw [hMlen]; exact hin
    have hXeq : (List.zipWith (fun b p => b && decide (p.z < thr))
        (List.zipWith and ((List.range n).map (fun j =>
          (mask_filter faces (visible_face_mask fp fn cam)).any
            (fun f => f.i0 == j || f.i1 == j || f.i2 == j))) in_range)
        projected).getD i false = true ↔
        ((∃ j, j < faces.length ∧
          vdot (vsub (fp.getD j vzero) cam) (fn.getD j vzero) < 0 ∧
          ((faces.getD j ⟨0, 0, 0⟩).i0 = i ∨ (faces.getD j ⟨0, 0, 0⟩).i1 = i ∨
           (faces.getD j ⟨0, 0, 0⟩).i2 = i)) ∧
         in_range.getD i false = true ∧
         (projected.getD i vzero).z < thr) := by
      rw [List.getD_eq_getElem _ _ hiM]
      simp only [List.getElem_zipWith, List.getElem_map, List.getElem_range]
      rw [Bool.and_eq_true, Bool.and_eq_true, decide_eq_true_eq]
      rw [visible_any_iff faces fp fn cam i h3 h4]
      rw [List.getD_eq_getElem _ _ hiR, List.getD_eq_getElem _ _ hiP]
      simp [and_assoc]
    rw [hXeq]
    simp only [hin, true_and]
    rw [and_assoc, and_assoc]
  · exact ⟨fun h => absurd h.1.1 hin, fun h => absurd h.1 hin⟩

theorem claim_C7_witness :
    0 ∈ label_indices 3 [⟨0, 0, 0⟩, ⟨0, 0, 0⟩, ⟨0, 0, 0⟩] [true, true, true]
      [⟨0, 1, 2⟩] [⟨0, 0, 0⟩] [⟨0, 0, 1⟩] ⟨0, 0, 1⟩ 1 none :=
  (claim_C7_amended 3 [⟨0, 0, 0⟩, ⟨0, 0, 0⟩, ⟨0, 0, 0⟩] [true, true, true]
      [⟨0, 1, 2⟩] [⟨0, 0, 0⟩] [⟨0, 0, 1⟩] ⟨0, 0, 1⟩ 1 none 0
      rfl rfl rfl rfl (by norm_num)
      (by
        intro f hf
        simp only [List.mem_singleton] at hf
        subst hf
        exact ⟨by norm_num, by norm_num, by norm_num⟩)).mpr
    ⟨by norm_num,
     ⟨0, by norm_num,
      by norm_num [vdot, vsub, vzero, List.getD_cons_zero],
      Or.inl rfl⟩,
     rfl,
     by norm_num [vzero, List.getD_cons_zero],
     by simp⟩
